import Mathlib

/-!
Shallow embedding of the llm-benchmarking-suite scripts
(src/scripts/generate_comparison.py, src/scripts/create_index.py,
src/scripts/verify_connection.py, src/scripts/patch_guidellm.py)
together with theorems settling the frozen claims about them.

Python dynamic values, rows and dicts are modelled explicitly; machine
floats are modelled as exact rationals (all constants appearing in the
claims are exactly representable); Python exceptions that the scripts
catch are modelled as Option results.
-/

/-! ## generate_comparison.py: data model

A benchmark result row is a Python dict from string keys to dynamic
values.  The values relevant to extract_metrics are numbers, strings and
None. A string is tagged by whether the Python builtin float() accepts
it: strNum q is a (necessarily nonempty) string that float() parses to q,
strBad s is a string on which float() raises ValueError (this includes
the empty string).  null models None and any other value on which
float() raises.
-/

inductive Value where
  | num (q : ℚ)
  | strNum (q : ℚ)
  | strBad (s : String)
  | null
  deriving DecidableEq, Repr

/-- Python truthiness of a Value: numbers are truthy iff nonzero, strings
iff nonempty (a float-parseable string is never empty), None is falsy. -/
def Value.truthy : Value → Bool
  | .num q => q ≠ 0
  | .strNum _ => true
  | .strBad s => s ≠ ""
  | .null => false

/-- The Python builtin float() on a Value: succeeds on numbers and
numeric strings, raises (modelled as none) otherwise. -/
def Value.toFloat : Value → Option ℚ
  | .num q => some q
  | .strNum q => some q
  | .strBad _ => none
  | .null => none

/-- A result row: a Python dict, modelled as an association list with
the first binding of a key the authoritative one. -/
abbrev Row := List (String × Value)

/-- Python dict row.get(field): first binding of the key, if any. -/
def rget (r : Row) (k : String) : Option Value :=
  match r with
  | [] => none
  | (k1, v) :: t => if k1 = k then some v else rget t k

/-- Python membership test: field in row. -/
def hasKey (r : Row) (k : String) : Bool :=
  (rget r k).isSome

/-- Truthiness of row.get(field): false when the key is missing. -/
def truthyGet (r : Row) (k : String) : Bool :=
  match rget r k with
  | some v => v.truthy
  | none => false

/-! ## generate_comparison.py: extract_metrics (list branch, lines 40-67)

The comprehension on line 51 filters the rows by truthiness of
row.get(field) and applies float() to each kept value; the first
non-coercible kept value raises ValueError, which line 59 catches,
skipping the whole field.  coerceAll returns none exactly when some kept
value is non-coercible.
-/

/-- The field values of exactly the rows whose value for the field is
present and truthy (the filter `if row.get(field)` on line 51). -/
def truthyVals (data : List Row) (field : String) : List Value :=
  data.filterMap (fun r =>
    match rget r field with
    | some v => if v.truthy then some v else none
    | none => none)

/-- float() applied across a list of values; none as soon as one raises
(the ValueError of line 51, caught on line 59). -/
def coerceAll : List Value → Option (List ℚ)
  | [] => some []
  | v :: vs =>
    match v.toFloat, coerceAll vs with
    | some q, some qs => some (q :: qs)
    | _, _ => none

/-- The min of a nonempty list of rationals (Python min(values)). -/
def listMin (q : ℚ) (qs : List ℚ) : ℚ :=
  qs.foldl min q

/-- The max of a nonempty list of rationals (Python max(values)). -/
def listMax (q : ℚ) (qs : List ℚ) : ℚ :=
  qs.foldl max q

/-- The avg/min/max/count aggregate dict built on lines 53-58. -/
structure Aggregate where
  avg : ℚ
  min : ℚ
  max : ℚ
  count : ℕ
  deriving DecidableEq, Repr

/-- The five candidate numeric fields of line 46. -/
def numericFields : List String :=
  ["request_latency", "response_time", "tokens_per_second", "prompt_tokens", "completion_tokens"]

/-- One iteration of the loop on lines 48-60 for a single field, on
nonempty data: the field is considered only when it is a key of the
first row (line 49); the kept values are float()-coerced, a failure
skipping the field (lines 50-60); an empty kept list also produces no
aggregate (line 52). -/
def fieldAggregate (data : List Row) (field : String) : Option Aggregate :=
  match data with
  | [] => none
  | r0 :: _ =>
    if hasKey r0 field then
      match coerceAll (truthyVals data field) with
      | some [] => none
      | some (q :: qs) =>
        let values := q :: qs
        some { avg := values.sum / values.length
               min := listMin q qs
               max := listMax q qs
               count := values.length }
      | none => none
    else none

/-- The metrics dict produced by the list branch of extract_metrics:
the per-field aggregates plus total_requests (line 63) and success_rate
(lines 66-67). -/
structure Metrics where
  fields : List (String × Aggregate)
  total_requests : ℕ
  success_rate : ℚ
  deriving DecidableEq, Repr

/-- Association lookup in the metrics field list. -/
def aggLookup (l : List (String × Aggregate)) (k : String) : Option Aggregate :=
  match l with
  | [] => none
  | (k1, a) :: t => if k1 = k then some a else aggLookup t k

/-- extract_metrics (generate_comparison.py lines 36-76) on list-shaped
data.  The empty list returns the empty metrics dict (line 43), modelled
as none; otherwise the aggregates of the considered fields, the row
count, and the percentage of rows lacking a truthy error field. -/
def extractMetrics (data : List Row) : Option Metrics :=
  match data with
  | [] => none
  | _ :: _ =>
    let successful := (data.filter (fun r => ! truthyGet r "error")).length
    some { fields := numericFields.filterMap
             (fun f => (fieldAggregate data f).map (fun a => (f, a)))
           total_requests := data.length
           success_rate := ((successful : ℚ) / (data.length : ℚ)) * 100 }

/-! ## create_index.py: dates

datetime objects are modelled by their calendar date (create_index.py
only ever formats the date part with strftime, and time of day plays no
role in any claim).  Validity mirrors the datetime constructor: year
1..9999, month 1..12, day within the month, Gregorian leap years.
-/

structure Date where
  year : ℕ
  month : ℕ
  day : ℕ
  deriving DecidableEq, Repr

/-- Gregorian leap year rule used by Python datetime. -/
def isLeap (y : ℕ) : Bool :=
  y % 4 = 0 && (y % 100 ≠ 0 || y % 400 = 0)

/-- Number of days in a month, as validated by the datetime constructor. -/
def daysInMonth (y m : ℕ) : ℕ :=
  if m = 2 then (if isLeap y then 29 else 28)
  else if m = 4 || m = 6 || m = 9 || m = 11 then 30
  else 31

/-- A Date a Python datetime can represent. -/
def isValidDate (d : Date) : Bool :=
  1 ≤ d.year && d.year ≤ 9999 && 1 ≤ d.month && d.month ≤ 12 &&
    1 ≤ d.day && d.day ≤ daysInMonth d.year d.month

/-- Decimal digits of a digit string. -/
def digitsToNat (l : List Char) : ℕ :=
  l.foldl (fun a c => 10 * a + (c.toNat - 48)) 0

/-- A number zero-padded to the given width, as strftime emits it. -/
def padNum (w n : ℕ) : List Char :=
  let ds := Nat.toDigits 10 n
  List.replicate (w - ds.length) '0' ++ ds

/-- strftime of a date with format string %Y-%m-%d (create_index.py
line 51). -/
def fmtDate (d : Date) : String :=
  String.mk (padNum 4 d.year ++ '-' :: padNum 2 d.month ++ '-' :: padNum 2 d.day)

/-- The date-validity gate shared by both strptime models: the parsed
components survive only when they form a valid date (otherwise the
datetime constructor raises ValueError). -/
def mkValid (d : Date) : Option Date :=
  if isValidDate d then some d else none

/-- strptime with format %Y%m%d (create_index.py line 42): exactly four
digits of year, then month and day such that the whole string is
consumed, the year nonzero and the date valid; none models the
ValueError that line 48 catches. -/
def parseCompact (l : List Char) : Option Date :=
  if l.length = 8 && l.all Char.isDigit then
    mkValid { year := digitsToNat (l.take 4)
              month := digitsToNat ((l.drop 4).take 2)
              day := digitsToNat (l.drop 6) }
  else none

/-- Python str.split on one character with the separator kept explicit:
empty segments are preserved and the result is never the empty list. -/
def splitOnChar (c : Char) : List Char → List (List Char)
  | [] => [[]]
  | x :: xs =>
    let r := splitOnChar c xs
    if x = c then [] :: r
    else
      match r with
      | [] => [[x]]
      | h :: t => (x :: h) :: t

/-- strptime with format %Y-%m-%d (create_index.py line 44): four year
digits, dash, one or two month digits, dash, one or two day digits,
nothing left over, and the resulting date valid; none models the
ValueError that line 48 catches. -/
def parseDashed (l : List Char) : Option Date :=
  match splitOnChar '-' l with
  | [ys, ms, ds] =>
    if ys.length = 4 && ys.all Char.isDigit &&
        (ms.length = 1 || ms.length = 2) && ms.all Char.isDigit &&
        (ds.length = 1 || ds.length = 2) && ds.all Char.isDigit then
      mkValid { year := digitsToNat ys, month := digitsToNat ms, day := digitsToNat ds }
    else none
  | _ => none

/-! ## create_index.py: per-file date and platform derivation
(generate_index_html, lines 35-62)
-/

/-- A report file found in the html directory: its stem (filename
without the .html extension), modification time and size. -/
structure FileEntry where
  stem : String
  mtime : Date
  size : ℕ
  deriving DecidableEq, Repr

/-- The trailing underscore-delimited token of the stem, with line 38's
test: it becomes the date string only when, after removing dashes and
underscores, it is a nonempty digit string. -/
def dateToken (stem : String) : Option (List Char) :=
  let parts := splitOnChar '_' stem.data
  let last := parts.getLastD []
  let stripped := (last.filter (fun c => c ≠ '-')).filter (fun c => c ≠ '_')
  if stripped ≠ [] && stripped.all Char.isDigit then some last else none

/-- Date derivation for one file (create_index.py lines 36-49): an
8-character date token goes through the compact parser, a dashed token
through the dashed parser, and every failure (no token, wrong length
without a dash, or a strptime ValueError) falls back to the file
modification time. -/
def deriveDate (stem : String) (mtime : Date) : Date :=
  match dateToken stem with
  | some tok =>
    if tok.length = 8 then (parseCompact tok).getD mtime
    else if tok.contains '-' then (parseDashed tok).getD mtime
    else mtime
  | none => mtime

/-- The bucket key of a file: the derived date formatted %Y-%m-%d
(create_index.py line 51). -/
def dateKey (f : FileEntry) : String :=
  fmtDate (deriveDate f.stem f.mtime)

/-- Platform derivation (create_index.py line 55): everything before the
last underscore-delimited token, or the whole stem when there is no
underscore. -/
def derivePlatform (stem : String) : String :=
  let parts := splitOnChar '_' stem.data
  if parts.length > 1 then
    String.mk (List.intercalate ['_'] parts.dropLast)
  else stem

/-- The report record appended on lines 56-62 (file_path omitted: it
needs no more than the filename here, and no claim touches it). -/
structure Report where
  platform : String
  filename : String
  size : ℕ
  modified : Date
  deriving DecidableEq, Repr

/-- The record built for one file. -/
def toReport (f : FileEntry) : Report :=
  { platform := derivePlatform f.stem
    filename := f.stem ++ ".html"
    size := f.size
    modified := deriveDate f.stem f.mtime }

/-! ## create_index.py: grouping by date (lines 33-62) -/

/-- Insertion into the reports_by_date dict: append to the existing
bucket of the key, else add a new bucket at the end (Python dict
insertion order). -/
def insertReport (acc : List (String × List Report)) (k : String) (r : Report) :
    List (String × List Report) :=
  match acc with
  | [] => [(k, [r])]
  | (k1, rs) :: t =>
    if k1 = k then (k1, rs ++ [r]) :: t else (k1, rs) :: insertReport t k r

/-- The reports_by_date grouping of the loop on lines 35-62. -/
def groupReports (files : List FileEntry) : List (String × List Report) :=
  files.foldl (fun acc f => insertReport acc (dateKey f) (toReport f)) []

/-- Occurrence count of a record in a list of records. -/
def countRep (r : Report) : List Report → ℕ
  | [] => 0
  | x :: t => (if x = r then 1 else 0) + countRep r t

/-- How many times a record occurs in the whole grouping, over all
buckets. -/
def countIn (g : List (String × List Report)) (r : Report) : ℕ :=
  (g.map (fun b => countRep r b.2)).sum

/-- A sample modification date used by witnesses. -/
def mtEx : Date :=
  { year := 2000, month := 1, day := 2 }

/-! ## create_index.py: generate_index_html and main (lines 13-68, 467-481)

The output page is modelled by its semantic content: either the
empty-state page of generate_empty_index, or the index page determined
by the date grouping and the header statistics.  main writes the page
and falls through, so the process exit code on normal completion is 0.
-/

inductive IndexOutput where
  | emptyState
  | index (grouping : List (String × List Report))
      (totalReports totalDates platformsCount : ℕ)
  deriving DecidableEq, Repr

/-- Numeric value of a date for the modification-time sort. -/
def dateVal (d : Date) : ℕ :=
  d.year * 10000 + d.month * 100 + d.day

/-- The directory listing minus index.html (lines 25-28). -/
def filterListing (listing : List FileEntry) : List FileEntry :=
  listing.filter (fun f => f.stem ≠ "index")

/-- Sort by modification time, newest first (line 31).  Python's sort
is stable, and any stable sort of the same total preorder computes the
same list, so a stable insertion sort models it. -/
def sortListing (files : List FileEntry) : List FileEntry :=
  List.insertionSort (fun f g => dateVal g.mtime ≤ dateVal f.mtime) files

/-- generate_index_html: the missing html directory gives the
empty-state page (lines 19-21), as does an empty grouping (lines
267-268); otherwise the grouped index page with its statistics (total
reports, test days, distinct platforms; lines 270-277). -/
def generateIndexHtml (htmlDirExists : Bool) (listing : List FileEntry) : IndexOutput :=
  if htmlDirExists = false then .emptyState
  else
    let grouped := groupReports (sortListing (filterListing listing))
    if grouped.isEmpty then .emptyState
    else
      .index grouped
        ((grouped.map (fun b => b.2.length)).sum)
        grouped.length
        ((grouped.map (fun b => b.2.map Report.platform)).flatten.dedup.length)

/-- create_index.py main (lines 467-481): generates the page, writes it
and falls through, hence process exit code 0 on normal completion. -/
def indexMain (htmlDirExists : Bool) (listing : List FileEntry) : IndexOutput × ℕ :=
  (generateIndexHtml htmlDirExists listing, 0)

/-! ## generate_comparison.py: generate_html_report and main
(lines 78-364, 366-416)

The rendered page is modelled by the template slots the source fills:
the error banner (lines 354-356), the chart sections markup (lines
251-274) and the chart data arrays serialized into the chart scripts
(lines 277-352).  The surrounding boilerplate of the template contains
none of these markers.
-/

/-- The success-rate chart section appended on lines 253-258
(whitespace normalized). -/
def successChartSection : String :=
  "<div class=\"chart-container\"><h3>Success Rate Comparison</h3><canvas id=\"successRateChart\"></canvas></div>"

/-- The latency chart section appended on lines 261-266. -/
def latencyChartSection : String :=
  "<div class=\"chart-container\"><h3>Average Latency Comparison</h3><canvas id=\"latencyChart\"></canvas></div>"

/-- The throughput chart section appended on lines 269-274. -/
def throughputChartSection : String :=
  "<div class=\"chart-container\"><h3>Tokens per Second Comparison</h3><canvas id=\"throughputChart\"></canvas></div>"

/-- The error banner of line 356. -/
def noDataBanner : String :=
  "<div class=\"error-message\">No benchmark data found. Please run benchmarks first.</div>"

/-- metrics.get of a field aggregate average with default 0
(lines 279-280). -/
def aggAvgD (m : Metrics) (f : String) : ℚ :=
  match aggLookup m.fields f with
  | some a => a.avg
  | none => 0

/-- The per-platform data arrays serialized into the three bar charts
(lines 277-280). -/
structure ChartData where
  labels : List String
  successRates : List ℚ
  latencies : List ℚ
  throughputs : List ℚ
  deriving DecidableEq, Repr

/-- The template slots of the rendered comparison page. -/
structure ReportParts where
  date : String
  errorMessage : String
  charts : String
  chartScripts : Option ChartData
  deriving DecidableEq, Repr

/-- generate_html_report: chart sections and chart scripts exactly when
more than one platform is present (line 251), the error banner exactly
when no platform data exists (lines 354-356). -/
def generateHtmlReport (pd : List (String × Metrics)) (date : String) : ReportParts :=
  { date := date
    errorMessage := if pd.isEmpty then noDataBanner else ""
    charts :=
      if pd.length > 1 then
        successChartSection ++ latencyChartSection ++ throughputChartSection
      else ""
    chartScripts :=
      if pd.length > 1 then
        some { labels := pd.map (fun p => p.1)
               successRates := pd.map (fun p => p.2.success_rate)
               latencies := pd.map (fun p => aggAvgD p.2 "request_latency")
               throughputs := pd.map (fun p => aggAvgD p.2 "tokens_per_second") }
      else none }

/-- generate_comparison.py main (lines 366-416) after loading: renders
the page from the loaded platform data (the empty dict still renders a
page, lines 401-404), writes it and falls through, hence process exit
code 0 on normal completion. -/
def comparisonMain (pd : List (String × Metrics)) (date : String) : ReportParts × ℕ :=
  (generateHtmlReport pd date, 0)

/-! ## verify_connection.py: main (lines 109-153)

The environment is an association list of set variables. get_env_var
(lines 25-31) treats an unset or empty variable as missing.  The
outcomes of the three checks are abstract booleans; the API
connectivity check issues exactly one HTTP request when it runs, so the
number of network calls performed by main is 1 when the checks run and
0 when main returns early.
-/

/-- Environment lookup, os.environ.get. -/
def envGet (env : List (String × String)) (k : String) : Option String :=
  match env with
  | [] => none
  | (k1, v) :: t => if k1 = k then some v else envGet t k

/-- get_env_var (verify_connection.py lines 25-31): none when the
variable is unset or set to a falsy (empty) string. -/
def getEnvVar (env : List (String × String)) (k : String) : Option String :=
  match envGet env k with
  | some v => if v = "" then none else some v
  | none => none

/-- The base URL of line 114: first candidate variable, or the second. -/
def baseUrlOf (env : List (String × String)) : Option String :=
  match getEnvVar env "GUIDELLM__OPENAI__BASE_URL" with
  | some v => some v
  | none => getEnvVar env "OPENAI_API_BASE"

/-- The API key of line 115: first candidate variable, or the second. -/
def apiKeyOf (env : List (String × String)) : Option String :=
  match getEnvVar env "GUIDELLM__OPENAI__API_KEY" with
  | some v => some v
  | none => getEnvVar env "OPENAI_API_KEY"

/-- The outcomes of the three verification checks. -/
structure CheckOutcomes where
  apiOk : Bool
  importOk : Bool
  configOk : Bool
  deriving DecidableEq, Repr

/-- The observable result of verify_connection.py main: the returned
exit code and the number of network calls performed. -/
structure VerifyResult where
  exitCode : ℕ
  networkCalls : ℕ
  deriving DecidableEq, Repr

/-- verify_connection.py main (lines 109-153): missing base URL or API
key returns 1 before any check runs (lines 117-121); otherwise the
three checks run (one network call) and the exit code is 0 exactly when
all three succeeded (lines 124-153). -/
def verifyMain (env : List (String × String)) (t : CheckOutcomes) : VerifyResult :=
  match baseUrlOf env, apiKeyOf env with
  | some _, some _ =>
    let successCount := (if t.apiOk then 1 else 0) + (if t.importOk then 1 else 0) +
      (if t.configOk then 1 else 0)
    { exitCode := if successCount = 3 then 0 else 1, networkCalls := 1 }
  | _, _ => { exitCode := 1, networkCalls := 0 }

/-! ## patch_guidellm.py: patched_process_startup (lines 11-24)

The externally-defined backend is modelled by its target and the header
dict of its live HTTP client; the original process_startup method is an
arbitrary function from backends to a backend plus the log lines it
prints.  The wrapper awaits the original first, then reads
OPENAI_API_KEY from the environment at call time and either sets the
Authorization header of the client (Python dict assignment: replace in
place or append) or logs a warning and changes nothing.
-/

/-- The HTTP client header dict. -/
structure HttpClient where
  headers : List (String × String)
  deriving DecidableEq, Repr

/-- The slice of an OpenAIHTTPBackend instance the patch touches. -/
structure Backend where
  target : String
  asyncClient : HttpClient
  deriving DecidableEq, Repr

/-- Python dict assignment d[k] = v: replace the binding in place, or
append a new one. -/
def setHeader (hs : List (String × String)) (k v : String) : List (String × String) :=
  match hs with
  | [] => [(k, v)]
  | (k1, v1) :: t => if k1 = k then (k1, v) :: t else (k1, v1) :: setHeader t k v

/-- Header lookup in a header dict. -/
def headerGet (hs : List (String × String)) (k : String) : Option String :=
  match hs with
  | [] => none
  | (k1, v) :: t => if k1 = k then some v else headerGet t k

/-- patched_process_startup (patch_guidellm.py lines 11-21): await the
original startup, then, when OPENAI_API_KEY is set and truthy, assign
the bearer Authorization header on the live client and log the success
line; otherwise log the warning and leave the backend as the original
left it. -/
def patchedProcessStartup (env : List (String × String))
    (orig : Backend → Backend × List String) (b : Backend) : Backend × List String :=
  let r := orig b
  match envGet env "OPENAI_API_KEY" with
  | some k =>
    if k = "" then
      (r.1, r.2 ++ ["Warning: OPENAI_API_KEY not found in environment variables."])
    else
      ({ r.1 with asyncClient :=
           { headers := setHeader r.1.asyncClient.headers "Authorization" ("Bearer " ++ k) } },
       r.2 ++ ["Added Authorization header for " ++ r.1.target])
  | none =>
    (r.1, r.2 ++ ["Warning: OPENAI_API_KEY not found in environment variables."])

/-- The API key as the wrapper's truthiness test sees it: some exactly
when OPENAI_API_KEY is set to a nonempty string at call time. -/
def truthyKey (env : List (String × String)) : Option String :=
  match envGet env "OPENAI_API_KEY" with
  | some k => if k = "" then none else some k
  | none => none

/-! ## Theorems for the claims -/

/-- Evaluation of deriveDate when the token parses in the compact
branch: the modification time is ignored. -/
theorem deriveDate_compact (stem : String) (tok : List Char) (d mt : Date)
    (h1 : dateToken stem = some tok) (h2 : tok.length = 8)
    (h3 : parseCompact tok = some d) : deriveDate stem mt = d := by
  unfold deriveDate
  rw [h1]
  simp [h2, h3]

/-- Evaluation of deriveDate when the token parses in the dashed
branch: the modification time is ignored. -/
theorem deriveDate_dashed (stem : String) (tok : List Char) (d mt : Date)
    (h1 : dateToken stem = some tok) (h2 : tok.length ≠ 8)
    (h2b : tok.contains '-' = true) (h3 : parseDashed tok = some d) :
    deriveDate stem mt = d := by
  have hmem : '-' ∈ tok := by simpa using h2b
  unfold deriveDate
  rw [h1]
  simp [h2, hmem, h3]

/-- C6: the Index Builder derives platform gpt4 and date bucket
2024-01-15 from the filename gpt4_20240115.html through the compact-date
branch (the key is independent of the modification time, so no fallback
is involved), and the filename claude-sonnet_2024-01-15.html yields the
same bucket through the dashed-date branch. -/
theorem claim_C6 :
    (∀ mt sz, dateKey { stem := "gpt4_20240115", mtime := mt, size := sz } = "2024-01-15") ∧
    derivePlatform "gpt4_20240115" = "gpt4" ∧
    parseCompact "20240115".data = some { year := 2024, month := 1, day := 15 } ∧
    (∀ mt sz,
      dateKey { stem := "claude-sonnet_2024-01-15", mtime := mt, size := sz } = "2024-01-15") ∧
    derivePlatform "claude-sonnet_2024-01-15" = "claude-sonnet" ∧
    parseDashed "2024-01-15".data = some { year := 2024, month := 1, day := 15 } := by
  refine ⟨fun mt sz => ?_, by decide, by decide, fun mt sz => ?_, by decide, by decide⟩
  · show fmtDate (deriveDate "gpt4_20240115" mt) = "2024-01-15"
    rw [deriveDate_compact "gpt4_20240115" "20240115".data { year := 2024, month := 1, day := 15 }
      mt (by decide) (by decide) (by decide)]
    decide
  · show fmtDate (deriveDate "claude-sonnet_2024-01-15" mt) = "2024-01-15"
    rw [deriveDate_dashed "claude-sonnet_2024-01-15" "2024-01-15".data
      { year := 2024, month := 1, day := 15 } mt (by decide) (by decide) (by decide) (by decide)]
    decide

/-- C8: whenever the trailing underscore-delimited token of a report
stem is not parseable as a date (both the compact and the dashed parser
reject it, these rejections modelling the caught strptime ValueError),
or no token qualifies at all, the derived date is the file modification
time; deriveDate is a total function, so no date-parse failure escapes
date derivation. -/
theorem claim_C8 (stem : String) (mt : Date)
    (h : ∀ tok, dateToken stem = some tok → parseCompact tok = none ∧ parseDashed tok = none) :
    deriveDate stem mt = mt := by
  unfold deriveDate
  cases htok : dateToken stem with
  | none => rfl
  | some tok =>
    obtain ⟨hc, hd⟩ := h tok htok
    simp only [hc, hd, Option.getD_none, ite_self]

/-- Witness for C8 at the spec's example results_final.html: the
trailing token final is not a date, and the derived date is the
modification time. -/
theorem claim_C8_witness : deriveDate "results_final" mtEx = mtEx := by
  apply claim_C8
  intro tok htok
  rw [show dateToken "results_final" = none from by decide] at htok
  exact Option.noConfusion htok

/-- When both candidate base URL variables are unset, the derived base
URL is missing. -/
theorem baseUrlOf_eq_none (env : List (String × String))
    (h1 : envGet env "GUIDELLM__OPENAI__BASE_URL" = none)
    (h2 : envGet env "OPENAI_API_BASE" = none) : baseUrlOf env = none := by
  simp [baseUrlOf, getEnvVar, h1, h2]

/-- When both candidate API key variables are unset, the derived API
key is missing. -/
theorem apiKeyOf_eq_none (env : List (String × String))
    (h1 : envGet env "GUIDELLM__OPENAI__API_KEY" = none)
    (h2 : envGet env "OPENAI_API_KEY" = none) : apiKeyOf env = none := by
  simp [apiKeyOf, getEnvVar, h1, h2]

/-- C3: the Connectivity Checker returns 0 exactly when the base URL
and API key are derivable from the environment and all three checks
succeed; every other outcome returns 1; and when both candidate
variables for the base URL, or both for the API key, are absent from
the environment, it returns 1 with no network call performed. -/
theorem claim_C3 (env : List (String × String)) (t : CheckOutcomes) :
    ((verifyMain env t).exitCode = 0 ↔
      (baseUrlOf env).isSome ∧ (apiKeyOf env).isSome ∧ t.apiOk ∧ t.importOk ∧ t.configOk)
    ∧ ((verifyMain env t).exitCode = 0 ∨ (verifyMain env t).exitCode = 1)
    ∧ (envGet env "GUIDELLM__OPENAI__BASE_URL" = none ∧ envGet env "OPENAI_API_BASE" = none →
        verifyMain env t = { exitCode := 1, networkCalls := 0 })
    ∧ (envGet env "GUIDELLM__OPENAI__API_KEY" = none ∧ envGet env "OPENAI_API_KEY" = none →
        verifyMain env t = { exitCode := 1, networkCalls := 0 }) := by
  obtain ⟨a, i, c⟩ := t
  refine ⟨?_, ?_, ?_, ?_⟩
  · cases hb : baseUrlOf env <;> cases hk : apiKeyOf env <;>
      (simp [verifyMain, hb, hk]; try (cases a <;> cases i <;> cases c <;> simp))
  · cases hb : baseUrlOf env <;> cases hk : apiKeyOf env <;>
      (simp [verifyMain, hb, hk]; try (cases a <;> cases i <;> cases c <;> simp))
  · rintro ⟨h1, h2⟩
    simp [verifyMain, baseUrlOf_eq_none env h1 h2]
  · rintro ⟨h1, h2⟩
    cases hb : baseUrlOf env <;>
      simp [verifyMain, hb, apiKeyOf_eq_none env h1 h2]

/-- Witness for C3: with an empty environment the checker returns 1
without performing any network call, and with both variables set and
all checks succeeding it returns 0. -/
theorem claim_C3_witness :
    verifyMain [] { apiOk := true, importOk := true, configOk := true } =
      { exitCode := 1, networkCalls := 0 } ∧
    (verifyMain [("GUIDELLM__OPENAI__BASE_URL", "http:u"), ("GUIDELLM__OPENAI__API_KEY", "k")]
      { apiOk := true, importOk := true, configOk := true }).exitCode = 0 := by
  constructor
  · exact (claim_C3 [] { apiOk := true, importOk := true, configOk := true }).2.2.1 ⟨rfl, rfl⟩
  · exact (claim_C3 [("GUIDELLM__OPENAI__BASE_URL", "http:u"), ("GUIDELLM__OPENAI__API_KEY", "k")]
      { apiOk := true, importOk := true, configOk := true }).1.mpr (by decide)

/-- Looking up the key just assigned in a header dict finds the
assigned value. -/
theorem headerGet_setHeader_self (hs : List (String × String)) (k v : String) :
    headerGet (setHeader hs k v) k = some v := by
  induction hs with
  | nil => simp [setHeader, headerGet]
  | cons p t ih =>
    obtain ⟨k1, v1⟩ := p
    by_cases hk : k1 = k <;> simp [setHeader, headerGet, hk, ih]

/-- C7: the patched process_startup first performs the original startup
(its log lines come first, the mutated state is derived from its
result) and then, exactly when OPENAI_API_KEY is set to a truthy value
at call time, assigns the bearer Authorization header on the backend's
live HTTP client; when the key is absent it logs the warning and the
backend is exactly what the original startup produced.  The iff direction
assumes the original startup itself leaves no Authorization header. -/
theorem claim_C7 (env : List (String × String)) (orig : Backend → Backend × List String)
    (b : Backend)
    (h : headerGet ((orig b).1).asyncClient.headers "Authorization" = none) :
    (∃ msg, (patchedProcessStartup env orig b).2 = (orig b).2 ++ [msg])
    ∧ (∀ k, truthyKey env = some k →
        (patchedProcessStartup env orig b).1.target = (orig b).1.target ∧
        headerGet (patchedProcessStartup env orig b).1.asyncClient.headers "Authorization" =
          some ("Bearer " ++ k) ∧
        (patchedProcessStartup env orig b).2 =
          (orig b).2 ++ ["Added Authorization header for " ++ (orig b).1.target])
    ∧ (truthyKey env = none →
        (patchedProcessStartup env orig b).1 = (orig b).1 ∧
        (patchedProcessStartup env orig b).2 =
          (orig b).2 ++ ["Warning: OPENAI_API_KEY not found in environment variables."])
    ∧ ((headerGet (patchedProcessStartup env orig b).1.asyncClient.headers
          "Authorization").isSome ↔ (truthyKey env).isSome) := by
  cases he : envGet env "OPENAI_API_KEY" with
  | none =>
    have ht : truthyKey env = none := by simp [truthyKey, he]
    refine ⟨⟨"Warning: OPENAI_API_KEY not found in environment variables.", ?_⟩, ?_, ?_, ?_⟩ <;>
      simp [patchedProcessStartup, he, ht, h]
  | some k =>
    by_cases hk : k = ""
    · have ht : truthyKey env = none := by simp [truthyKey, he, hk]
      refine ⟨⟨"Warning: OPENAI_API_KEY not found in environment variables.", ?_⟩, ?_, ?_, ?_⟩ <;>
        simp [patchedProcessStartup, he, hk, ht, h]
    · have ht : truthyKey env = some k := by simp [truthyKey, he, hk]
      refine ⟨⟨"Added Authorization header for " ++ (orig b).1.target, ?_⟩, ?_, ?_, ?_⟩ <;>
        simp [patchedProcessStartup, he, hk, ht, headerGet_setHeader_self]

/-- Witness for C7: a concrete original startup that sets no
Authorization header, run once with the key present and once with it
absent. -/
theorem claim_C7_witness :
    headerGet (patchedProcessStartup [("OPENAI_API_KEY", "sk-1")]
        (fun b => (b, ["started"])) { target := "api", asyncClient := { headers := [] } }
      ).1.asyncClient.headers "Authorization" = some "Bearer sk-1" ∧
    (patchedProcessStartup [] (fun b => (b, ["started"]))
        { target := "api", asyncClient := { headers := [] } }).1 =
      { target := "api", asyncClient := { headers := [] } } := by
  constructor
  · exact ((claim_C7 [("OPENAI_API_KEY", "sk-1")] (fun b => (b, ["started"]))
      { target := "api", asyncClient := { headers := [] } } (by decide)).2.1 "sk-1"
      (by decide)).2.1
  · exact ((claim_C7 [] (fun b => (b, ["started"]))
      { target := "api", asyncClient := { headers := [] } } (by decide)).2.2.1 (by decide)).1

/-- C5: the rendered comparison page carries the three bar-chart
sections (success rate, average latency, tokens per second) exactly
when more than one platform is present in the loaded data, and the
serialized chart data arrays exist exactly then; with no platform data
at all the page carries the no-data error banner and no chart sections;
and the comparison process exits 0 on normal completion either way. -/
theorem claim_C5 (pd : List (String × Metrics)) (date : String) :
    ((generateHtmlReport pd date).charts =
        successChartSection ++ latencyChartSection ++ throughputChartSection ↔ pd.length > 1)
    ∧ (¬ (generateHtmlReport pd date).charts = "" ↔ pd.length > 1)
    ∧ ((generateHtmlReport pd date).chartScripts.isSome ↔ pd.length > 1)
    ∧ (pd = [] → (generateHtmlReport pd date).errorMessage = noDataBanner ∧
        (generateHtmlReport pd date).charts = "" ∧
        (generateHtmlReport pd date).chartScripts = none)
    ∧ (pd ≠ [] → (generateHtmlReport pd date).errorMessage = "")
    ∧ (comparisonMain pd date).2 = 0 := by
  have hne : successChartSection ++ latencyChartSection ++ throughputChartSection ≠ "" := by
    decide
  by_cases hl : pd.length > 1
  · have hpd : pd ≠ [] := by
      intro hc
      rw [hc] at hl
      exact absurd hl (by decide)
    simp [generateHtmlReport, comparisonMain, hl, hpd, hne]
  · constructor
    · simp [generateHtmlReport, hl]
      exact fun hc => absurd hc.symm hne
    · simp [generateHtmlReport, comparisonMain, hl, List.isEmpty_iff]
      exact ⟨fun h1 h2 => absurd h1 h2, fun h1 h2 => absurd h2 h1⟩

/-- Witness for C5: two platforms produce the chart sections; the empty
data produces the banner and no charts, with exit code 0. -/
theorem claim_C5_witness :
    (generateHtmlReport [("a", { fields := [], total_requests := 1, success_rate := 100 }),
        ("b", { fields := [], total_requests := 1, success_rate := 100 })] "2024-01-15").charts =
      successChartSection ++ latencyChartSection ++ throughputChartSection ∧
    (generateHtmlReport [] "2024-01-15").errorMessage = noDataBanner ∧
    (generateHtmlReport [] "2024-01-15").charts = "" ∧
    (comparisonMain [] "2024-01-15").2 = 0 := by
  obtain ⟨h1, -, -, -, -, -⟩ :=
    claim_C5 [("a", { fields := [], total_requests := 1, success_rate := 100 }),
      ("b", { fields := [], total_requests := 1, success_rate := 100 })] "2024-01-15"
  obtain ⟨-, -, -, h4, -, h6⟩ := claim_C5 ([] : List (String × Metrics)) "2024-01-15"
  obtain ⟨he, hc, -⟩ := h4 rfl
  exact ⟨h1.mpr (by decide), he, hc, h6⟩

/-- C9: on nonempty list-shaped data, extract_metrics reports as
success_rate the percentage of rows that lack a truthy error field,
that is, 100 times the complement of the truthy-error row count over
the row count. -/
theorem claim_C9 (data : List Row) (h : data ≠ []) :
    (extractMetrics data).map Metrics.success_rate =
      some (((data.length : ℚ) -
          ((data.filter (fun r => truthyGet r "error")).length : ℚ)) / (data.length : ℚ) * 100) := by
  cases data with
  | nil => exact absurd rfl h
  | cons r0 t =>
    have hx : extractMetrics (r0 :: t) = some
        { fields := numericFields.filterMap
            (fun f => (fieldAggregate (r0 :: t) f).map (fun a => (f, a)))
          total_requests := (r0 :: t).length
          success_rate := ((((r0 :: t).filter (fun r => ! truthyGet r "error")).length : ℚ) /
            ((r0 :: t).length : ℚ)) * 100 } := rfl
    rw [hx]
    simp only [Option.map_some']
    have hsplit := List.length_eq_length_filter_add (l := r0 :: t)
      (fun r => truthyGet r "error")
    have hq : (((r0 :: t).length : ℚ)) =
        (((r0 :: t).filter (fun r => truthyGet r "error")).length : ℚ) +
          (((r0 :: t).filter (fun r => ! truthyGet r "error")).length : ℚ) := by
      exact_mod_cast hsplit
    congr 1
    rw [hq]
    ring

/-- coerceAll fails exactly when some value in the list is not
float()-coercible. -/
theorem coerceAll_eq_none (vs : List Value) :
    coerceAll vs = none ↔ ∃ v ∈ vs, v.toFloat = none := by
  induction vs with
  | nil => simp [coerceAll]
  | cons v t ih =>
    cases hv : v.toFloat with
    | none =>
      simp only [coerceAll, hv]
      exact iff_of_true trivial ⟨v, List.mem_cons_self v t, hv⟩
    | some q =>
      cases hc : coerceAll t with
      | none =>
        simp only [coerceAll, hv, hc]
        obtain ⟨w, hw, hwf⟩ := ih.mp hc
        exact iff_of_true trivial ⟨w, List.mem_cons_of_mem v hw, hwf⟩
      | some qs =>
        simp only [coerceAll, hv, hc]
        constructor
        · intro hfalse
          exact Option.noConfusion hfalse
        · rintro ⟨w, hw, hwf⟩
          rcases List.mem_cons.mp hw with hwv | hwt
          · rw [hwv] at hwf
            rw [hwf] at hv
            exact Option.noConfusion hv
          · rw [ih.mpr ⟨w, hwt, hwf⟩] at hc
            exact Option.noConfusion hc

/-- Looking up a field that is not among the candidates finds no
aggregate. -/
theorem aggLookup_filterMap_of_not_mem (A : String → Option Aggregate) (l : List String)
    (f : String) (hf : f ∉ l) :
    aggLookup (l.filterMap (fun g => (A g).map (fun a => (g, a)))) f = none := by
  induction l with
  | nil => rfl
  | cons g t ih =>
    have hfg : ¬ g = f := fun hc => hf (hc ▸ List.mem_cons_self g t)
    have hft : f ∉ t := fun hc => hf (List.mem_cons_of_mem g hc)
    cases hA : A g with
    | none => simpa [List.filterMap_cons, hA] using ih hft
    | some a => simpa [List.filterMap_cons, hA, aggLookup, hfg] using ih hft

/-- Looking up a candidate field in the aggregate list built by
filterMap recovers that field's aggregate. -/
theorem aggLookup_filterMap (A : String → Option Aggregate) (l : List String) (f : String)
    (hf : f ∈ l) (hnd : l.Nodup) :
    aggLookup (l.filterMap (fun g => (A g).map (fun a => (g, a)))) f = A f := by
  induction l with
  | nil => cases hf
  | cons g t ih =>
    obtain ⟨hg, hndt⟩ := List.nodup_cons.mp hnd
    by_cases hfg : g = f
    · subst hfg
      cases hA : A g with
      | none => simpa [List.filterMap_cons, hA] using aggLookup_filterMap_of_not_mem A t g hg
      | some a => simp [List.filterMap_cons, hA, aggLookup]
    · have hft : f ∈ t := (List.mem_cons.mp hf).resolve_left (fun hc => hfg hc.symm)
      cases hA : A g with
      | none => simpa [List.filterMap_cons, hA] using ih hft hndt
      | some a => simpa [List.filterMap_cons, hA, aggLookup, hfg] using ih hft hndt

/-- The per-field aggregate that extract_metrics reports for nonempty
list data: the loop result for candidate fields, nothing for any other
field. -/
theorem extractMetrics_lookup (r0 : Row) (t : List Row) (f : String) :
    (extractMetrics (r0 :: t)).bind (fun m => aggLookup m.fields f) =
      if f ∈ numericFields then fieldAggregate (r0 :: t) f else none := by
  have hx : (extractMetrics (r0 :: t)).bind (fun m => aggLookup m.fields f) =
      aggLookup (numericFields.filterMap
        (fun g => (fieldAggregate (r0 :: t) g).map (fun a => (g, a)))) f := rfl
  rw [hx]
  by_cases hf : f ∈ numericFields
  · rw [if_pos hf, aggLookup_filterMap _ _ _ hf (by decide)]
  · rw [if_neg hf, aggLookup_filterMap_of_not_mem _ _ _ hf]

/-- The three rows of the claim's concrete example. -/
def c1Rows : List Row :=
  [[("tokens_per_second", Value.num 10)], [("tokens_per_second", Value.num 20)],
   [("tokens_per_second", Value.strBad "bad")]]

/-- Counterexample to C1 as stated: on rows with tokens_per_second
values 10, 20 and a non-coercible string, extract_metrics does not
report an average of 15 over the 2 coercible rows; the ValueError
raised by float() on the bad value is caught by skipping the whole
field, so no tokens_per_second aggregate exists at all. -/
theorem claim_C1_counterexample :
    ¬ ∃ m a, extractMetrics c1Rows = some m ∧
        aggLookup m.fields "tokens_per_second" = some a ∧ a.avg = 15 ∧ a.count = 2 := by
  rintro ⟨m, a, hm, ha, -, -⟩
  have hb : (extractMetrics c1Rows).bind
      (fun m => aggLookup m.fields "tokens_per_second") = none := by
    have hl := extractMetrics_lookup [("tokens_per_second", Value.num 10)]
      [[("tokens_per_second", Value.num 20)], [("tokens_per_second", Value.strBad "bad")]]
      "tokens_per_second"
    rw [show c1Rows = [("tokens_per_second", Value.num 10)] ::
      [[("tokens_per_second", Value.num 20)], [("tokens_per_second", Value.strBad "bad")]]
      from rfl, hl, if_pos (by decide)]
    decide
  rw [hm] at hb
  simp only [Option.some_bind] at hb
  rw [hb] at ha
  exact Option.noConfusion ha

/-- C1 amended: for list-shaped data whose first row carries the field,
the aggregate covers exactly the rows whose value for the field is
present and truthy, with missing and falsy values silently excluded;
however a present, truthy but non-coercible value does not get
excluded row-wise: it makes float() raise, and the caught ValueError
suppresses the entire aggregate for that field (so the example rows
10, 20, "bad" produce no tokens_per_second aggregate rather than
avg 15 over 2 rows). -/
theorem claim_C1_amended (r0 : Row) (t : List Row) (field : String)
    (hmem : field ∈ numericFields) :
    ((∃ v ∈ truthyVals (r0 :: t) field, v.toFloat = none) →
      (extractMetrics (r0 :: t)).bind (fun m => aggLookup m.fields field) = none)
    ∧ (∀ q qs, hasKey r0 field = true →
        coerceAll (truthyVals (r0 :: t) field) = some (q :: qs) →
        (extractMetrics (r0 :: t)).bind (fun m => aggLookup m.fields field) =
          some { avg := (q :: qs).sum / ((q :: qs).length : ℚ), min := listMin q qs,
                 max := listMax q qs, count := (q :: qs).length }) := by
  rw [extractMetrics_lookup r0 t field, if_pos hmem]
  constructor
  · intro hex
    have hc : coerceAll (truthyVals (r0 :: t) field) = none := (coerceAll_eq_none _).mpr hex
    unfold fieldAggregate
    by_cases hk : hasKey r0 field <;> simp [hk, hc]
  · intro q qs hk hc
    unfold fieldAggregate
    simp [hk, hc]

/-- Witness for the amended C1: rows 10, 20 and a row missing the field
give the aggregate over exactly the two present rows: average 15,
count 2. -/
theorem claim_C1_amended_witness :
    (extractMetrics [[("tokens_per_second", Value.num 10)],
        [("tokens_per_second", Value.num 20)], []]).bind
      (fun m => aggLookup m.fields "tokens_per_second") =
      some { avg := 15, min := 10, max := 20, count := 2 } := by
  have h := (claim_C1_amended [("tokens_per_second", Value.num 10)]
    [[("tokens_per_second", Value.num 20)], []] "tokens_per_second" (by decide)).2
    10 [20] (by decide) (by decide)
  rw [h]
  norm_num [listMin, listMax]

/-- The kept field values of an appended list are the kept values of
the parts. -/
theorem truthyVals_append (l1 l2 : List Row) (field : String) :
    truthyVals (l1 ++ l2) field = truthyVals l1 field ++ truthyVals l2 field := by
  unfold truthyVals
  exact List.filterMap_append l1 l2 _

/-- C10: extract_metrics considers a numeric field only when the first
row carries it (a field missing from the first row yields no aggregate
at all, whatever the later rows hold), and a row whose value for the
field is missing or falsy contributes nothing to the field's aggregate
(appending such a row leaves the aggregate unchanged). -/
theorem claim_C10 (r0 : Row) (t : List Row) (field : String) (r : Row) :
    (hasKey r0 field = false →
      (extractMetrics (r0 :: t)).bind (fun m => aggLookup m.fields field) = none)
    ∧ (truthyGet r field = false →
      (extractMetrics ((r0 :: t) ++ [r])).bind (fun m => aggLookup m.fields field) =
        (extractMetrics (r0 :: t)).bind (fun m => aggLookup m.fields field)) := by
  constructor
  · intro hk
    rw [extractMetrics_lookup]
    by_cases hf : field ∈ numericFields
    · rw [if_pos hf]
      unfold fieldAggregate
      simp [hk]
    · rw [if_neg hf]
  · intro hr
    have h1 : truthyVals [r] field = [] := by
      unfold truthyVals
      cases hg : rget r field with
      | none => simp [hg]
      | some v =>
        have hv : v.truthy = false := by
          unfold truthyGet at hr
          rw [hg] at hr
          exact hr
        simp [hg, hv]
    have htv : truthyVals ((r0 :: t) ++ [r]) field = truthyVals (r0 :: t) field := by
      rw [truthyVals_append, h1, List.append_nil]
    have hfa : fieldAggregate ((r0 :: t) ++ [r]) field = fieldAggregate (r0 :: t) field := by
      show fieldAggregate (r0 :: (t ++ [r])) field = fieldAggregate (r0 :: t) field
      unfold fieldAggregate
      rw [show (r0 :: (t ++ [r])) = ((r0 :: t) ++ [r]) from rfl, htv]
      rfl
    rw [show ((r0 :: t) ++ [r]) = (r0 :: (t ++ [r])) from rfl,
      extractMetrics_lookup r0 (t ++ [r]) field, extractMetrics_lookup r0 t field]
    by_cases hf : field ∈ numericFields
    · rw [if_pos hf, if_pos hf]
      rw [show fieldAggregate (r0 :: (t ++ [r])) field =
        fieldAggregate ((r0 :: t) ++ [r]) field from rfl, hfa]
    · rw [if_neg hf, if_neg hf]

/-- Witness for C10: response_time absent from the first row yields no
aggregate even though a later row carries it; appending a row with a
falsy tokens_per_second value leaves the tokens_per_second aggregate
unchanged. -/
theorem claim_C10_witness :
    (extractMetrics [[("tokens_per_second", Value.num 10)], [("response_time", Value.num 7)]]).bind
        (fun m => aggLookup m.fields "response_time") = none ∧
    (extractMetrics ([[("tokens_per_second", Value.num 10)],
          [("tokens_per_second", Value.num 20)]] ++ [[("tokens_per_second", Value.num 0)]])).bind
        (fun m => aggLookup m.fields "tokens_per_second") =
      (extractMetrics [[("tokens_per_second", Value.num 10)],
          [("tokens_per_second", Value.num 20)]]).bind
        (fun m => aggLookup m.fields "tokens_per_second") := by
  constructor
  · exact (claim_C10 [("tokens_per_second", Value.num 10)] [[("response_time", Value.num 7)]]
      "response_time" []).1 (by decide)
  · exact (claim_C10 [("tokens_per_second", Value.num 10)] [[("tokens_per_second", Value.num 20)]]
      "tokens_per_second" [("tokens_per_second", Value.num 0)]).2 (by decide)

/-- Witness for C9 at the spec's example: four rows of which one
carries a truthy error field give a success rate of 75 percent. -/
theorem claim_C9_witness :
    (extractMetrics [[], [], [], [("error", Value.strBad "timeout")]]).map
      Metrics.success_rate = some 75 := by
  rw [claim_C9 [[], [], [], [("error", Value.strBad "timeout")]] (by decide)]
  rw [show ([[], [], [], [("error", Value.strBad "timeout")]].filter
      (fun r => truthyGet r "error")).length = 1 from by decide]
  norm_num

/-- A record occurrence count distributes over append. -/
theorem countRep_append (r : Report) (l1 l2 : List Report) :
    countRep r (l1 ++ l2) = countRep r l1 + countRep r l2 := by
  induction l1 with
  | nil => simp [countRep]
  | cons x t ih => simp [countRep, ih, Nat.add_assoc]

/-- Inserting one record adds exactly one occurrence of it to the
grouping, in the bucket of its key, and nothing else. -/
theorem countIn_insertReport (acc : List (String × List Report)) (k : String)
    (r r1 : Report) :
    countIn (insertReport acc k r) r1 = countIn acc r1 + (if r = r1 then 1 else 0) := by
  induction acc with
  | nil => simp [insertReport, countIn, countRep]
  | cons p t ih =>
    obtain ⟨k1, rs⟩ := p
    by_cases hk : k1 = k
    · simp [insertReport, hk, countIn, countRep_append, countRep, Nat.add_assoc]
      exact Nat.add_comm _ _
    · simp only [insertReport, if_neg hk, countIn, List.map_cons, List.sum_cons]
      have ihx := ih
      simp only [countIn] at ihx
      rw [ihx, Nat.add_assoc]

/-- A key of the grouping after an insertion was already a key or is
the inserted key. -/
theorem mem_keys_insertReport (acc : List (String × List Report)) (k : String)
    (r : Report) (k1 : String)
    (h : k1 ∈ (insertReport acc k r).map Prod.fst) :
    k1 ∈ acc.map Prod.fst ∨ k1 = k := by
  induction acc with
  | nil =>
    simp [insertReport] at h
    exact Or.inr h
  | cons p t ih =>
    obtain ⟨k2, rs⟩ := p
    by_cases hk : k2 = k
    · simp only [insertReport, if_pos hk, List.map_cons] at h
      exact Or.inl h
    · simp only [insertReport, if_neg hk, List.map_cons, List.mem_cons] at h
      rcases h with h2 | h2
      · exact Or.inl (h2 ▸ List.mem_cons_self k2 (t.map Prod.fst))
      · rcases ih h2 with h3 | h3
        · exact Or.inl (List.mem_cons_of_mem k2 h3)
        · exact Or.inr h3

/-- Insertion preserves distinctness of the bucket keys. -/
theorem keys_insertReport_nodup (acc : List (String × List Report)) (k : String)
    (r : Report) (h : (acc.map Prod.fst).Nodup) :
    ((insertReport acc k r).map Prod.fst).Nodup := by
  induction acc with
  | nil => simp [insertReport]
  | cons p t ih =>
    obtain ⟨k2, rs⟩ := p
    have hx : (k2 :: t.map Prod.fst).Nodup := h
    obtain ⟨h2, ht⟩ := List.nodup_cons.mp hx
    by_cases hk : k2 = k
    · simpa [insertReport, hk] using h
    · rw [show insertReport ((k2, rs) :: t) k r = (k2, rs) :: insertReport t k r from by
        simp [insertReport, hk]]
      rw [List.map_cons]
      refine List.nodup_cons.mpr ⟨?_, ih ht⟩
      intro hc
      rcases mem_keys_insertReport t k r k2 hc with h3 | h3
      · exact h2 h3
      · exact hk h3

/-- Folding the grouping step over a file list adds each file's record
exactly once to the running grouping. -/
theorem countIn_groupAux (files : List FileEntry) (acc : List (String × List Report))
    (r : Report) :
    countIn (files.foldl (fun a f => insertReport a (dateKey f) (toReport f)) acc) r =
      countIn acc r + countRep r (files.map toReport) := by
  induction files generalizing acc with
  | nil => simp [countRep]
  | cons f fs ih =>
    rw [List.foldl_cons, ih, countIn_insertReport]
    simp [countRep]
    omega

/-- Every key of the grouping built from a file list over an
accumulator is a key of the accumulator or the date key of one of the
files. -/
theorem mem_keys_groupAux (files : List FileEntry) (acc : List (String × List Report))
    (k : String)
    (h : k ∈ (files.foldl (fun a f => insertReport a (dateKey f) (toReport f)) acc).map
      Prod.fst) :
    k ∈ acc.map Prod.fst ∨ ∃ f ∈ files, k = dateKey f := by
  induction files generalizing acc with
  | nil => exact Or.inl h
  | cons f fs ih =>
    rw [List.foldl_cons] at h
    rcases ih (insertReport acc (dateKey f) (toReport f)) h with h1 | ⟨g, hg, hgk⟩
    · rcases mem_keys_insertReport acc (dateKey f) (toReport f) k h1 with h2 | h2
      · exact Or.inl h2
      · exact Or.inr ⟨f, List.mem_cons_self f fs, h2⟩
    · exact Or.inr ⟨g, List.mem_cons_of_mem f hg, hgk⟩

/-- The grouping fold preserves distinctness of bucket keys. -/
theorem keys_groupAux_nodup (files : List FileEntry) (acc : List (String × List Report))
    (h : (acc.map Prod.fst).Nodup) :
    ((files.foldl (fun a f => insertReport a (dateKey f) (toReport f)) acc).map
      Prod.fst).Nodup := by
  induction files generalizing acc with
  | nil => exact h
  | cons f fs ih =>
    rw [List.foldl_cons]
    exact ih _ (keys_insertReport_nodup acc (dateKey f) (toReport f) h)

/-- The validity gate only lets valid dates through. -/
theorem mkValid_valid (d0 d : Date) (h : mkValid d0 = some d) : isValidDate d = true := by
  unfold mkValid at h
  split at h
  · injection h with h1
    subst h1
    assumption
  · exact Option.noConfusion h

/-- The compact parser only produces valid dates. -/
theorem parseCompact_valid (l : List Char) (d : Date) (h : parseCompact l = some d) :
    isValidDate d = true := by
  unfold parseCompact at h
  split at h
  · exact mkValid_valid _ d h
  · exact Option.noConfusion h

/-- The dashed parser only produces valid dates. -/
theorem parseDashed_valid (l : List Char) (d : Date) (h : parseDashed l = some d) :
    isValidDate d = true := by
  unfold parseDashed at h
  split at h
  · split at h
    · exact mkValid_valid _ d h
    · exact Option.noConfusion h
  · exact Option.noConfusion h

/-- The derived date of a file is a valid calendar date as long as its
modification date is. -/
theorem deriveDate_valid (stem : String) (mt : Date) (h : isValidDate mt = true) :
    isValidDate (deriveDate stem mt) = true := by
  unfold deriveDate
  cases htok : dateToken stem with
  | none => exact h
  | some tok =>
    show isValidDate (if tok.length = 8 then (parseCompact tok).getD mt
      else if tok.contains '-' = true then (parseDashed tok).getD mt else mt) = true
    by_cases h8 : tok.length = 8
    · rw [if_pos h8]
      cases hp : parseCompact tok with
      | none => simpa using h
      | some d => simpa using parseCompact_valid tok d hp
    · rw [if_neg h8]
      by_cases hdash : tok.contains '-' = true
      · rw [if_pos hdash]
        cases hp : parseDashed tok with
        | none => simpa using h
        | some d => simpa using parseDashed_valid tok d hp
      · rw [if_neg hdash]
        exact h

/-- C2: for every file list with valid modification dates, the Index
Builder grouping has pairwise-distinct bucket keys, each key formats a
valid calendar date as YYYY-MM-DD (so no two buckets can cover the same
date), and each file's record lands in the grouping exactly as often as
it occurs in the file list: each file is assigned to exactly one
bucket. -/
theorem claim_C2 (files : List FileEntry)
    (hmt : ∀ f ∈ files, isValidDate f.mtime = true) :
    (∀ k ∈ (groupReports files).map Prod.fst, ∃ d, isValidDate d = true ∧ k = fmtDate d)
    ∧ ((groupReports files).map Prod.fst).Nodup
    ∧ (∀ r : Report, countIn (groupReports files) r = countRep r (files.map toReport)) := by
  refine ⟨?_, ?_, ?_⟩
  · intro k hk
    rcases mem_keys_groupAux files [] k hk with h1 | ⟨f, hf, hkey⟩
    · simp at h1
    · exact ⟨deriveDate f.stem f.mtime, deriveDate_valid f.stem f.mtime (hmt f hf), hkey⟩
  · exact keys_groupAux_nodup files [] (by simp)
  · intro r
    have hx := countIn_groupAux files [] r
    simpa [countIn] using hx

/-- Witness for C2 on a one-file listing: the single bucket key is the
formatted parsed date, keys are distinct, and the file's record occurs
exactly once across buckets. -/
theorem claim_C2_witness :
    (∃ d, isValidDate d = true ∧ "2024-01-15" = fmtDate d) ∧
    ((groupReports [{ stem := "gpt4_20240115", mtime := mtEx, size := 123 }]).map
      Prod.fst).Nodup ∧
    countIn (groupReports [{ stem := "gpt4_20240115", mtime := mtEx, size := 123 }])
      (toReport { stem := "gpt4_20240115", mtime := mtEx, size := 123 }) = 1 := by
  obtain ⟨hval, hnd, hcnt⟩ :=
    claim_C2 [{ stem := "gpt4_20240115", mtime := mtEx, size := 123 }] (by decide)
  refine ⟨hval "2024-01-15" (by decide), hnd, ?_⟩
  rw [hcnt]
  decide

/-- Inserting into a grouping never empties it. -/
theorem insertReport_ne_nil (acc : List (String × List Report)) (k : String) (r : Report) :
    insertReport acc k r ≠ [] := by
  cases acc with
  | nil => simp [insertReport]
  | cons p t =>
    obtain ⟨k1, rs⟩ := p
    by_cases hk : k1 = k <;> simp [insertReport, hk]

/-- The grouping fold never empties a nonempty accumulator. -/
theorem groupAux_ne_nil (files : List FileEntry) (acc : List (String × List Report))
    (h : acc ≠ []) :
    files.foldl (fun a f => insertReport a (dateKey f) (toReport f)) acc ≠ [] := by
  induction files generalizing acc with
  | nil => exact h
  | cons f fs ih =>
    rw [List.foldl_cons]
    exact ih _ (insertReport_ne_nil _ _ _)

/-- The grouping is empty exactly when there are no files. -/
theorem groupReports_eq_nil (files : List FileEntry) :
    groupReports files = [] ↔ files = [] := by
  constructor
  · intro h
    cases files with
    | nil => rfl
    | cons f fs =>
      exact absurd h (by
        show groupReports (f :: fs) ≠ []
        unfold groupReports
        rw [List.foldl_cons]
        exact groupAux_ne_nil fs _ (insertReport_ne_nil _ _ _))
  · rintro rfl
    rfl

/-- The sorted listing is empty exactly when the listing is. -/
theorem sortListing_eq_nil (l : List FileEntry) : sortListing l = [] ↔ l = [] := by
  constructor
  · intro h
    have hp := List.perm_insertionSort (fun f g => dateVal g.mtime ≤ dateVal f.mtime) l
    rw [show List.insertionSort (fun f g => dateVal g.mtime ≤ dateVal f.mtime) l =
      sortListing l from rfl, h] at hp
    exact (List.perm_nil.mp hp.symm)
  · rintro rfl
    rfl

/-- Counterexample to C4 as stated: the report file gpt4_99999999.html
makes strptime raise ValueError (the trailing token qualifies as a date
string but parses to no valid date); the error is caught, yet
generation does not degrade to the empty-state page: the normal index
page is produced from the modification-time fallback. -/
theorem claim_C4_counterexample :
    dateToken "gpt4_99999999" = some "99999999".data ∧
    parseCompact "99999999".data = none ∧
    generateIndexHtml true [{ stem := "gpt4_99999999", mtime := mtEx, size := 3 }] ≠
      IndexOutput.emptyState := by
  exact ⟨by decide, by decide, by decide⟩

/-- C4 amended: the Index Builder CLI exits 0 on normal completion, and
generation degrades to the empty-state page exactly when the html
directory is missing or no report files besides index.html exist; the
caught date-parse errors degrade to the modification-time fallback
(the regular index page), not to the empty-state page. -/
theorem claim_C4_amended (e : Bool) (listing : List FileEntry) :
    (indexMain e listing).2 = 0
    ∧ (generateIndexHtml e listing = IndexOutput.emptyState ↔
        (e = false ∨ filterListing listing = [])) := by
  refine ⟨rfl, ?_⟩
  cases e with
  | false => simp [generateIndexHtml]
  | true =>
    show (if (true : Bool) = false then IndexOutput.emptyState else
        if (groupReports (sortListing (filterListing listing))).isEmpty then
          IndexOutput.emptyState
        else _) = IndexOutput.emptyState ↔ _
    rw [if_neg (by simp)]
    constructor
    · intro h
      by_cases hg : (groupReports (sortListing (filterListing listing))).isEmpty
      · right
        have h1 : groupReports (sortListing (filterListing listing)) = [] :=
          List.isEmpty_iff.mp hg
        have h2 : sortListing (filterListing listing) = [] :=
          (groupReports_eq_nil _).mp h1
        exact (sortListing_eq_nil _).mp h2
      · rw [if_neg hg] at h
        exact IndexOutput.noConfusion h
    · rintro (hfalse | hnil)
      · exact Bool.noConfusion hfalse
      · rw [hnil]
        rfl

/-- Witness for the amended C4: an empty listing produces the
empty-state page with exit code 0. -/
theorem claim_C4_amended_witness :
    (indexMain true ([] : List FileEntry)).2 = 0 ∧
    generateIndexHtml true ([] : List FileEntry) = IndexOutput.emptyState := by
  obtain ⟨h0, hiff⟩ := claim_C4_amended true []
  exact ⟨h0, hiff.mpr (Or.inr rfl)⟩
